import Mathlib

/-!
Shallow embedding of the lobby / signalling logic of `server.js`
(diltdicker/redot-signalling-server).

The JavaScript program keeps a global directory `LOBBIES_LIST` of lobbies
and, per connection, a `User` ("peer") object.  Each message handler of
`handleMessage`, the connection handler and the close handler are
translated here as pure functions from an explicit state to an updated
state plus the list of outbound messages.  JavaScript object references
are rendered arena-style: a peer's `lobby` field is modelled as an
`Option Lobby` snapshot, and a mutation of a lobby that lives in the
directory is rendered as a code-keyed update of the directory list.
Paths where the JavaScript program throws (dereference of `undefined`,
a temporal-dead-zone read, calling a method that does not exist) are
modelled with `Except JsError`.
-/

/-- Semantics of the JavaScript expression `v || null` for a string
field: `undefined` and the empty string are falsy and collapse to
`null`; any other string passes through. -/
def jsStrOrNull (v : Option String) : Option String :=
  match v with
  | some s => if s = "" then none else some s
  | none => none

/-- Semantics of the JavaScript expression `v || true` for a boolean
field (source lines 230 and 281): `false || true` evaluates to `true`,
so the result is `true` for every input. -/
def jsBoolOrTrue (v : Option Bool) : Bool :=
  match v with
  | some b => b || true
  | none => true

/-- Semantics of `typeof v === 'number' ? Math.floor(v) : -1`
(source lines 231 and 279); numeric inputs are modelled already
truncated to integers. -/
def jsNumOrNegOne (v : Option Int) : Int :=
  match v with
  | some n => n
  | none => -1

/-- Semantics of `v || null` for a numeric field (source line 350):
`0` is falsy in JavaScript and collapses to `null`. -/
def jsNumOrNull (v : Option Int) : Option Int :=
  match v with
  | some n => if n = 0 then none else some n
  | none => none

/-- An arrow function whose body is a block `{ expr }` without a
`return` statement returns `undefined`; `Array.prototype.filter`
treats `undefined` as falsy and therefore keeps no element.  This
models `xs.filter((x) => { p(x) })` as written on source lines 124,
516 and 544. -/
def filterBlockBody (xs : List α) (p : α → Bool) : List α :=
  xs.filter (fun x => p x && false)

/-- Exceptions the JavaScript handlers can throw. -/
inductive JsError
  | typeError
  | referenceError
deriving DecidableEq, Repr

/- Protocol opcodes (source lines 30-44). -/

def PROTO_ID : Nat := 0
def PROTO_HOST : Nat := 1
def PROTO_JOIN : Nat := 2
def PROTO_QUEUE : Nat := 3
def PROTO_VIEW : Nat := 4
def PROTO_ADD : Nat := 5
def PROTO_KICK : Nat := 6
def PROTO_OFFER : Nat := 7
def PROTO_ANSWER : Nat := 8
def PROTO_CANDIDATE : Nat := 9
def PROTO_READY : Nat := 10
def PROTO_START : Nat := 11
def PROTO_ERR : Nat := 12

/- Lobby types (source lines 46-50). -/

def LOBBY_TYPE_PRIVATE : Nat := 0
def LOBBY_TYPE_PUBLIC : Nat := 1
def LOBBY_TYPE_QUEUE : Nat := 2

/- Error code / reason pairs (source lines 53-64). -/

def TOO_MANY_PEERS : Nat × String := (4029, "Too many peers connected Server busy")
def BAD_MESSAGE : Nat × String := (4022, "Received bad message Unable to process")
def LOBBY_NOT_FOUND : Nat × String := (4004, "Lobby for given lobbyCode does not exist")
def BAD_VIEW : Nat × String := (4000, "Invalid message for viewing lobby")
def BAD_HOST : Nat × String := (4006, "Invalid message for hosting lobby")
def BAD_JOIN : Nat × String := (4001, "Invalid message for joining lobby")
def BAD_QUEUE : Nat × String := (4010, "Inavlid message for queueing")

/-- Maximum number of simultaneous connections (source line 23). -/
def MAX_CONNS : Nat := 4096

/-- A peer as recorded inside a lobby's `peerList` (the fields of
`User` that lobby operations read; the back-reference is carried by
the separate `Peer` structure). -/
structure PeerEntry where
  id : Int
  lobbyId : Int
  isHost : Bool
  socket : Nat
deriving DecidableEq, Repr

/-- A lobby (class `Lobby`, source lines 90-138).  `queueIntervalId`
and `lobbyTimeoutId` are the two timer handles created by the
constructor; handles are opaque numbers whose identity is all the
model uses. -/
structure Lobby where
  lobbyCode : String
  lobbyType : Nat
  maxPeers : Int
  isMesh : Bool
  peerList : List PeerEntry
  game : String
  tags : Option String
  isActive : Bool
  queueIntervalId : Option Nat
  lobbyTimeoutId : Nat
deriving DecidableEq, Repr

/-- A connected peer (class `User`, source lines 143-168).  `lobbyRef`
models the `lobby` field: a reference to a `Lobby` object, rendered as
a snapshot of that object. -/
structure Peer where
  id : Int
  lobbyId : Int
  isHost : Bool
  game : Option String
  lobbyRef : Option Lobby
  socket : Nat
deriving DecidableEq, Repr

/-- An entry of the list a `VIEW` reply carries (source lines 332-342). -/
structure ViewEntry where
  lobbyCode : String
  peerCount : Nat
  isActive : Bool
  lobbyType : Nat
  maxPeers : Int
  tags : Option String
  isMesh : Bool
deriving DecidableEq, Repr

/-- Payload of an outbound message. -/
inductive MsgData
  | empty
  | err (code : Nat) (reason : String)
  | hostReply (id : Int) (lobbyCode : String) (isMesh : Bool)
  | joinReply (id : Int) (isMesh : Bool) (lobbyCode : String)
  | queueReply (id : Int) (lobbyCode : String) (isMesh : Bool) (isHost : Bool)
  | addNotice (peerId : Int)
  | kickNotice (id : Int) (lobbyAlive : Bool)
  | offerFwd (offer : Option String) (fromId : Int)
  | answerFwd (answer : Option String) (fromId : Int)
  | candidateFwd (media : Option String) (index : Option Int) (sdp : Option String) (fromId : Int)
  | viewReply (lobbyList : List ViewEntry)
deriving DecidableEq, Repr

/-- An outbound effect: a `sendMessage` frame or a `socket.close`. -/
inductive Msg
  | send (socket : Nat) (call : Nat) (data : MsgData)
  | closeSock (socket : Nat) (code : Nat) (reason : String)
deriving DecidableEq, Repr

/-- Shorthand for the `sendMessage(socket, PROTO.ERR, {code, reason})`
pattern. -/
def sendErr (socket : Nat) (e : Nat × String) : Msg :=
  Msg.send socket PROTO_ERR (MsgData.err e.1 e.2)

/-- Projection of the acting peer into a `PeerEntry` at the moment it
is pushed onto a lobby's `peerList`. -/
def peerEntryOf (p : Peer) : PeerEntry :=
  { id := p.id, lobbyId := p.lobbyId, isHost := p.isHost, socket := p.socket }

/-- Peer id minted in the `User` constructor, source line 148:
`Math.floor(Math.random() * (2147483647 - 2) - 2)`, where `r` models
the draw of `Math.random()`, a number in `[0, 1)`. -/
def mintPeerId (r : ℚ) : ℤ :=
  Int.floor (r * (2147483647 - 2) - 2)

/-- Result of the `SERVER.on('connection')` handler
(source lines 474-485). -/
structure ConnResult where
  curPeerCnt : Int
  mintedPeer : Bool
  startedTimers : Bool
  msgs : List Msg
deriving DecidableEq, Repr

/-- The connection handler, source lines 474-485.  The over-capacity
branch sends `ERR{TOO_MANY_PEERS}` and calls `socket.close`, but does
not `return`: lines 482-485 (increment, `new User`, `ID` frame) run in
every case. -/
def onConnection (curPeerCnt : Int) (sock : Nat) : ConnResult :=
  let capMsgs :=
    if curPeerCnt ≥ (MAX_CONNS : Int) then
      [sendErr sock TOO_MANY_PEERS, Msg.closeSock sock TOO_MANY_PEERS.1 TOO_MANY_PEERS.2]
    else []
  { curPeerCnt := curPeerCnt + 1
    mintedPeer := true
    startedTimers := true
    msgs := capMsgs ++ [Msg.send sock PROTO_ID MsgData.empty] }

/-- Fields of a `HOST` payload (source lines 228-232). -/
structure HostData where
  game : Option String
  isPublic : Bool
  isMesh : Option Bool
  maxPeers : Option Int
  tags : Option String
deriving DecidableEq, Repr

/-- Result of a state-changing message handler: the updated acting
peer, the updated `LOBBIES_LIST`, and the outbound frames. -/
structure HandlerResult where
  peer : Peer
  lobbies : List Lobby
  msgs : List Msg
deriving DecidableEq, Repr

/-- The `HOST` branch of `handleMessage`, source lines 224-244.
`newCode` stands for the draw of `generateLobbyCode()`, and the two
timer parameters for the handles `setTimeout` / `setInterval` return
in the `Lobby` constructor. -/
def handleHOST (data : HostData) (peer : Peer) (dir : List Lobby)
    (newCode : String) (newReapTimer : Nat) : HandlerResult :=
  let game := jsStrOrNull data.game
  let lobbyType := if data.isPublic then LOBBY_TYPE_PUBLIC else LOBBY_TYPE_PRIVATE
  let isMesh := jsBoolOrTrue data.isMesh
  let maxPeers := jsNumOrNegOne data.maxPeers
  let tags := jsStrOrNull data.tags
  if game = none ∨ maxPeers = -1 then
    { peer := peer, lobbies := dir, msgs := [sendErr peer.socket BAD_HOST] }
  else
    let peer1 := { peer with isHost := true, lobbyId := 1 }
    let lobby : Lobby :=
      { lobbyCode := newCode, lobbyType := lobbyType, maxPeers := maxPeers
        isMesh := isMesh, peerList := [peerEntryOf peer1], game := game.getD ""
        tags := tags, isActive := true
        queueIntervalId := if lobbyType = LOBBY_TYPE_QUEUE then some (newReapTimer + 1) else none
        lobbyTimeoutId := newReapTimer }
    { peer := { peer1 with lobbyRef := some lobby }
      lobbies := dir ++ [lobby]
      msgs := [Msg.send peer.socket PROTO_HOST (MsgData.hostReply 1 newCode isMesh)] }

/-- Fields of a `JOIN` payload (source lines 250-251). -/
structure JoinData where
  game : Option String
  lobbyCode : Option String
deriving DecidableEq, Repr

/-- The lookup predicate of the `JOIN` branch, source line 255:
`l.lobbyCode === lobbyCode && l.isActive && l.peerList.length < l.maxPeers`. -/
def joinPred (code : String) (l : Lobby) : Bool :=
  l.lobbyCode == code && l.isActive && decide ((l.peerList.length : Int) < l.maxPeers)

/-- The `JOIN` branch of `handleMessage`, source lines 246-272.  On a
hit, `lobby.peerList.push(peer)` mutates the lobby object found in
`LOBBIES_LIST`; arena-style this is `List.set` at the index `find?`
located. -/
def handleJOIN (data : JoinData) (peer : Peer) (dir : List Lobby) : HandlerResult :=
  match jsStrOrNull data.game, jsStrOrNull data.lobbyCode with
  | some _, some code =>
    match dir.find? (joinPred code) with
    | none =>
      { peer := peer, lobbies := dir, msgs := [sendErr peer.socket LOBBY_NOT_FOUND] }
    | some lobby =>
      let peer1 := { peer with isHost := false, lobbyId := peer.id }
      let lobby1 := { lobby with peerList := lobby.peerList ++ [peerEntryOf peer1] }
      let adds :=
        (lobby1.peerList.filter (fun p => !(p.lobbyId == peer1.lobbyId))).flatMap
          (fun p =>
            [Msg.send p.socket PROTO_ADD (MsgData.addNotice peer1.lobbyId),
             Msg.send peer1.socket PROTO_ADD (MsgData.addNotice p.lobbyId)])
      { peer := { peer1 with lobbyRef := some lobby1 }
        lobbies := dir.set (dir.findIdx (joinPred code)) lobby1
        msgs := Msg.send peer1.socket PROTO_JOIN
            (MsgData.joinReply peer1.lobbyId lobby.isMesh lobby.lobbyCode) :: adds }
  | _, _ =>
    { peer := peer, lobbies := dir, msgs := [sendErr peer.socket BAD_JOIN] }

/-- Fields of a `QUEUE` payload (source lines 278-281). -/
structure QueueData where
  game : Option String
  maxPeers : Option Int
  tags : Option String
  isMesh : Option Bool
deriving DecidableEq, Repr

/-- The queue-lobby match filter of the `QUEUE` branch, source lines
288-289: active queue-type lobbies in `LOBBIES_LIST` with the same
game, maxPeers and tags that are not full. -/
def queueMatches (g : String) (maxPeers : Int) (tags : Option String)
    (dir : List Lobby) : List Lobby :=
  dir.filter (fun l =>
    l.game == g && l.lobbyType == LOBBY_TYPE_QUEUE && l.isActive
      && l.maxPeers == maxPeers && l.tags == tags
      && decide ((l.peerList.length : Int) < l.maxPeers))

/-- Result of the `QUEUE` branch; `created` is the lobby object the
creation arm allocates (it is referenced by its own timers and by the
reply, but never pushed onto `LOBBIES_LIST`). -/
structure QueueResult where
  peer : Peer
  lobbies : List Lobby
  msgs : List Msg
  created : Option Lobby
deriving DecidableEq, Repr

/-- The `QUEUE` branch of `handleMessage`, source lines 274-313.
The join arm (lines 291-304) fires only when the filter finds more
than one match; it sets `peer.lobby` and sends the reply and the
mutual `ADD`s, but it never pushes the peer onto `lobby.peerList`.
The creation arm (lines 305-313) allocates a lobby with the caller as
host; it pushes it neither onto `LOBBIES_LIST` nor into `peer.lobby`. -/
def handleQUEUE (data : QueueData) (peer : Peer) (dir : List Lobby)
    (newCode : String) (newReapTimer : Nat) : QueueResult :=
  let game := jsStrOrNull data.game
  let maxPeers := jsNumOrNegOne data.maxPeers
  let tags := jsStrOrNull data.tags
  let isMesh := jsBoolOrTrue data.isMesh
  match game with
  | none =>
    { peer := peer, lobbies := dir, msgs := [sendErr peer.socket BAD_QUEUE], created := none }
  | some g =>
    if maxPeers = -1 then
      { peer := peer, lobbies := dir, msgs := [sendErr peer.socket BAD_QUEUE], created := none }
    else
      match queueMatches g maxPeers tags dir with
      | lobby :: _ :: _ =>
        let peer1 := { peer with lobbyId := peer.id, isHost := false, lobbyRef := some lobby }
        let adds :=
          (lobby.peerList.filter (fun p => !(p.lobbyId == peer1.lobbyId))).flatMap
            (fun p =>
              [Msg.send p.socket PROTO_ADD (MsgData.addNotice peer1.lobbyId),
               Msg.send peer1.socket PROTO_ADD (MsgData.addNotice p.lobbyId)])
        { peer := peer1
          lobbies := dir
          msgs := Msg.send peer1.socket PROTO_QUEUE
              (MsgData.queueReply peer1.lobbyId lobby.lobbyCode lobby.isMesh false) :: adds
          created := none }
      | _ =>
        let peer1 := { peer with lobbyId := 1, isHost := true }
        let lobby : Lobby :=
          { lobbyCode := newCode, lobbyType := LOBBY_TYPE_QUEUE, maxPeers := maxPeers
            isMesh := isMesh, peerList := [peerEntryOf peer1], game := g
            tags := tags, isActive := true
            queueIntervalId := some (newReapTimer + 1)
            lobbyTimeoutId := newReapTimer }
        { peer := peer1
          lobbies := dir
          msgs := [Msg.send peer1.socket PROTO_QUEUE
              (MsgData.queueReply 1 newCode isMesh true)]
          created := some lobby }

/-- Fields of a `VIEW` payload (source lines 319-320). -/
structure ViewData where
  lobbyCode : Option String
  game : Option String
deriving DecidableEq, Repr

/-- The lobby list a `VIEW` reply carries, source lines 326-342: by
code when a `lobbyCode` is supplied, otherwise the active, not-full
public lobbies of the requested game. -/
def viewLobbyList (data : ViewData) (dir : List Lobby) : List ViewEntry :=
  let lobbyCode := jsStrOrNull data.lobbyCode
  let game := jsStrOrNull data.game
  let ls : List Lobby :=
    match lobbyCode with
    | some code => dir.filter (fun l => l.lobbyCode == code)
    | none =>
      dir.filter (fun l =>
        game == some l.game && l.isActive
          && decide ((l.peerList.length : Int) < l.maxPeers)
          && l.lobbyType == LOBBY_TYPE_PUBLIC)
  ls.map (fun l =>
    { lobbyCode := l.lobbyCode, peerCount := l.peerList.length, isActive := l.isActive
      lobbyType := l.lobbyType, maxPeers := l.maxPeers, tags := l.tags, isMesh := l.isMesh })

/-- The `VIEW` branch of `handleMessage`, source lines 315-344.  A
missing `game` sends `ERR{BAD_VIEW}` but does not return; the reply is
sent in every case. -/
def handleVIEW (data : ViewData) (peer : Peer) (dir : List Lobby) : List Msg :=
  let errs := if jsStrOrNull data.game = none then [sendErr peer.socket BAD_VIEW] else []
  errs ++ [Msg.send peer.socket PROTO_VIEW (MsgData.viewReply (viewLobbyList data dir))]

/-- The `KICK` branch of `handleMessage`, source lines 346-395.
The host-kicks-self arm throws a `ReferenceError` at its first
statement, source line 356: the template string reads `lobby`, which
is declared by `let` only on line 364 and is still in its temporal
dead zone.  The host-kicks-other arm throws a `TypeError` at source
line 372: `peer.lobby` is a `Lobby` object, which has no method
`find`.  The non-host self-kick arm works: `kickPeer` removes the
sender, every remaining member is told `KICK{id, lobbyAlive:true}`,
and line 393 filters `peerList` with `p != peer.lobbyId`, which
compares a peer object against a number and is `true` for every
element, keeping all of them. -/
def handleKICK (idField : Option Int) (peer : Peer) (dir : List Lobby) :
    Except JsError HandlerResult :=
  let id := jsNumOrNull idField
  match id, peer.lobbyRef with
  | none, _ =>
    Except.ok { peer := peer, lobbies := dir, msgs := [sendErr peer.socket BAD_MESSAGE] }
  | some _, none =>
    Except.ok { peer := peer, lobbies := dir, msgs := [sendErr peer.socket BAD_MESSAGE] }
  | some i, some lobby =>
    if peer.lobbyId = i ∧ peer.isHost = true then
      Except.error JsError.referenceError
    else if peer.isHost = true ∧ peer.lobbyId ≠ i then
      Except.error JsError.typeError
    else if peer.lobbyId = i then
      let lobby1 :=
        { lobby with peerList := lobby.peerList.filter (fun p => !(p.lobbyId == peer.lobbyId)) }
      let msgs := lobby1.peerList.map
        (fun p => Msg.send p.socket PROTO_KICK (MsgData.kickNotice peer.lobbyId true))
      let updPeers : List PeerEntry → List PeerEntry := fun ps =>
        (ps.filter (fun p => !(p.lobbyId == peer.lobbyId))).filter (fun _ => true)
      Except.ok
        { peer := { peer with lobbyRef := none }
          lobbies := dir.map (fun l =>
            if l.lobbyCode == lobby.lobbyCode then { l with peerList := updPeers l.peerList }
            else l)
          msgs := msgs }
    else
      Except.ok { peer := peer, lobbies := dir, msgs := [] }

/-- Fields of an `OFFER` / `ANSWER` / `CANDIDATE` payload
(source lines 401-406). -/
structure RtcData where
  toId : Option Int
  offer : Option String
  answer : Option String
  media : Option String
  index : Option Int
  sdp : Option String
deriving DecidableEq, Repr

/-- The `OFFER` / `ANSWER` / `CANDIDATE` branch of `handleMessage`,
source lines 397-423.  A missing `toId` is answered with
`ERR{BAD_MESSAGE}`.  Otherwise line 411 runs
`peer.lobby.peerList.find((p) => p.lobbyId == toId)`: when the sender
has no lobby this dereferences `null`, and when no member matches,
`toPeer` is `undefined` and the `toPeer.socket` access on line 415,
418 or 421 throws a `TypeError`. -/
def handleRTC (protocol : Nat) (data : RtcData) (peer : Peer) :
    Except JsError (List Msg) :=
  let toId := data.toId
  let offer := jsStrOrNull data.offer
  let answer := jsStrOrNull data.answer
  let media := jsStrOrNull data.media
  let index := data.index
  let sdp := jsStrOrNull data.sdp
  match toId with
  | none => Except.ok [sendErr peer.socket BAD_MESSAGE]
  | some t =>
    match peer.lobbyRef with
    | none => Except.error JsError.typeError
    | some lobby =>
      match lobby.peerList.find? (fun p => p.lobbyId == t) with
      | none => Except.error JsError.typeError
      | some toPeer =>
        if protocol = PROTO_OFFER then
          Except.ok [Msg.send toPeer.socket protocol (MsgData.offerFwd offer peer.lobbyId)]
        else if protocol = PROTO_ANSWER then
          Except.ok [Msg.send toPeer.socket protocol (MsgData.answerFwd answer peer.lobbyId)]
        else
          Except.ok [Msg.send toPeer.socket protocol
            (MsgData.candidateFwd media index sdp peer.lobbyId)]

/-- Result of the `socket.on('close')` handler: the updated
`LOBBIES_LIST`, the outbound frames, the lobby timer handles that were
cancelled, and the `lobbyId`s of the peers whose `lobby` back-reference
was set to `null`. -/
structure CloseResult where
  lobbies : List Lobby
  msgs : List Msg
  cancelledTimers : List Nat
  clearedBackrefs : List Int
deriving DecidableEq, Repr

/-- The lobby-cleanup part of the `socket.on('close')` handler, source
lines 505-548.  In the active-host arm (lines 508-524) the directory
update on line 516 is `LOBBIES_LIST.filter((l) => {l.lobbyCode ===
lobby.lobbyCode})` — a block-body arrow that returns `undefined`, so
the filter keeps nothing; only `queueIntervalId` is cancelled, never
`lobbyTimeoutId`; the `KICK{id: p.lobbyId, lobbyAlive:false}` frames
go to the saved alias of the old peer list.  The non-host arm (lines
525-537) notifies every member and then filters `peerList` with
`p != peer.lobbyId`, an object-versus-number comparison that keeps
every element.  The inactive-host arm (lines 538-548) repeats the
active-host cleanup without the `KICK` frames (line 544 has the same
block-body filter). -/
def socketClose (peer : Peer) (dir : List Lobby) : CloseResult :=
  match peer.lobbyRef with
  | some lobby =>
    if lobby.isActive then
      if peer.isHost then
        { lobbies := filterBlockBody dir (fun l => l.lobbyCode == lobby.lobbyCode)
          msgs := lobby.peerList.map
            (fun p => Msg.send p.socket PROTO_KICK (MsgData.kickNotice p.lobbyId false))
          cancelledTimers := match lobby.queueIntervalId with | some t => [t] | none => []
          clearedBackrefs := lobby.peerList.map (fun p => p.lobbyId) }
      else
        { lobbies := dir.map (fun l =>
            if l.lobbyCode == lobby.lobbyCode then
              { l with peerList := l.peerList.filter (fun _ => true) }
            else l)
          msgs := lobby.peerList.map
            (fun p => Msg.send p.socket PROTO_KICK (MsgData.kickNotice peer.lobbyId true))
          cancelledTimers := []
          clearedBackrefs := [peer.lobbyId] }
    else if peer.isHost then
      { lobbies := filterBlockBody dir (fun l => l.lobbyCode == lobby.lobbyCode)
        msgs := []
        cancelledTimers := match lobby.queueIntervalId with | some t => [t] | none => []
        clearedBackrefs := lobby.peerList.map (fun p => p.lobbyId) }
    else
      { lobbies := dir, msgs := [], cancelledTimers := [], clearedBackrefs := [] }
  | none =>
    { lobbies := dir, msgs := [], cancelledTimers := [], clearedBackrefs := [] }

/-- One mutation of the global `LOBBIES_LIST` (or of a lobby object it
holds a reference to), as performed by some operation of the source:
the `HOST`, `JOIN`, `QUEUE` and `KICK` branches of `handleMessage`,
the `isActive = false` writes of the `READY` and `START` branches
(source lines 430 and 454), the `socket.on('close')` cleanup, and the
idle-reap timeout of the `Lobby` constructor (source line 124). -/
inductive DirStep : List Lobby → List Lobby → Prop
  | host : ∀ d p dir c t, DirStep dir (handleHOST d p dir c t).lobbies
  | join : ∀ d p dir, DirStep dir (handleJOIN d p dir).lobbies
  | queue : ∀ d p dir c t, DirStep dir (handleQUEUE d p dir c t).lobbies
  | kick : ∀ i p dir r, handleKICK i p dir = Except.ok r → DirStep dir r.lobbies
  | sealLobby : ∀ code dir, DirStep dir (dir.map (fun l =>
      if l.lobbyCode == code then { l with isActive := false } else l))
  | closeEvt : ∀ p dir, DirStep dir (socketClose p dir).lobbies
  | reap : ∀ code dir, DirStep dir (filterBlockBody dir (fun l => l.lobbyCode == code))

/-- The lobby directories reachable from the initial empty
`LOBBIES_LIST` (source line 27) by the directory mutations of the
source. -/
inductive ReachableDir : List Lobby → Prop
  | init : ReachableDir []
  | step : ∀ {d d'}, ReachableDir d → DirStep d d' → ReachableDir d'

/-- No lobby held by the directory is of type `QUEUE`. -/
def NoQueueLobby (dir : List Lobby) : Prop :=
  ∀ l ∈ dir, l.lobbyType ≠ LOBBY_TYPE_QUEUE

/- Concrete fixtures used by the counterexample evaluations. -/

/-- An active public lobby with a host (id 10) and one member (id 11). -/
def lobA : Lobby :=
  { lobbyCode := "AAAAAA", lobbyType := LOBBY_TYPE_PUBLIC, maxPeers := 4, isMesh := true
    peerList := [{ id := 10, lobbyId := 1, isHost := true, socket := 0 },
                 { id := 11, lobbyId := 11, isHost := false, socket := 1 }]
    game := "chess", tags := none, isActive := true
    queueIntervalId := none, lobbyTimeoutId := 77 }

/-- A second, unrelated active lobby. -/
def lobB : Lobby :=
  { lobbyCode := "BBBBBB", lobbyType := LOBBY_TYPE_PUBLIC, maxPeers := 4, isMesh := true
    peerList := [{ id := 12, lobbyId := 1, isHost := true, socket := 2 }]
    game := "chess", tags := none, isActive := true
    queueIntervalId := none, lobbyTimeoutId := 88 }

/-- The host of `lobA`. -/
def pHostA : Peer :=
  { id := 10, lobbyId := 1, isHost := true, game := some "chess"
    lobbyRef := some lobA, socket := 0 }

/-- A lobby whose only member is its host (id 5). -/
def lobR : Lobby :=
  { lobbyCode := "CCCCCC", lobbyType := LOBBY_TYPE_PRIVATE, maxPeers := 4, isMesh := true
    peerList := [{ id := 5, lobbyId := 1, isHost := true, socket := 0 }]
    game := "chess", tags := none, isActive := true
    queueIntervalId := none, lobbyTimeoutId := 70 }

/-- The host of `lobR`, alone in its lobby. -/
def pR : Peer :=
  { id := 5, lobbyId := 1, isHost := true, game := some "chess"
    lobbyRef := some lobR, socket := 0 }

/-- An active queue lobby of game "chess", maxPeers 2, with its host. -/
def qLob1 : Lobby :=
  { lobbyCode := "QQQQQQ", lobbyType := LOBBY_TYPE_QUEUE, maxPeers := 2, isMesh := true
    peerList := [{ id := 20, lobbyId := 1, isHost := true, socket := 2 }]
    game := "chess", tags := none, isActive := true
    queueIntervalId := some 1, lobbyTimeoutId := 0 }

/-- A second queue lobby with the same matching key as `qLob1`. -/
def qLob2 : Lobby :=
  { lobbyCode := "RRRRRR", lobbyType := LOBBY_TYPE_QUEUE, maxPeers := 2, isMesh := true
    peerList := [{ id := 21, lobbyId := 1, isHost := true, socket := 3 }]
    game := "chess", tags := none, isActive := true
    queueIntervalId := some 3, lobbyTimeoutId := 2 }

/-- A lobby-less peer about to send `QUEUE`. -/
def pQ : Peer :=
  { id := 30, lobbyId := 30, isHost := false, game := some "chess"
    lobbyRef := none, socket := 4 }

/-- A `QUEUE` payload matching `qLob1` and `qLob2`. -/
def qData : QueueData :=
  { game := some "chess", maxPeers := some 2, tags := none, isMesh := some true }

/-- A lobby with a host (id 40) and one member (id 41). -/
def lobK : Lobby :=
  { lobbyCode := "DDDDDD", lobbyType := LOBBY_TYPE_PRIVATE, maxPeers := 4, isMesh := true
    peerList := [{ id := 40, lobbyId := 1, isHost := true, socket := 5 },
                 { id := 41, lobbyId := 41, isHost := false, socket := 6 }]
    game := "chess", tags := none, isActive := true
    queueIntervalId := none, lobbyTimeoutId := 99 }

/-- The host of `lobK`. -/
def pK : Peer :=
  { id := 40, lobbyId := 1, isHost := true, game := some "chess"
    lobbyRef := some lobK, socket := 5 }

/-- A full lobby (`maxPeers = 1`, one member). -/
def fullLobby : Lobby :=
  { lobbyCode := "FFFFFF", lobbyType := LOBBY_TYPE_PUBLIC, maxPeers := 1, isMesh := true
    peerList := [{ id := 50, lobbyId := 1, isHost := true, socket := 8 }]
    game := "chess", tags := none, isActive := true
    queueIntervalId := none, lobbyTimeoutId := 60 }

/-- A lobby-less peer about to send `JOIN`. -/
def pJ : Peer :=
  { id := 51, lobbyId := 51, isHost := false, game := some "chess"
    lobbyRef := none, socket := 9 }

/-- A `JOIN` payload naming `fullLobby`. -/
def dJ : JoinData := { game := some "chess", lobbyCode := some "FFFFFF" }

/-- A lobby-less peer about to send `HOST`. -/
def pH : Peer :=
  { id := 60, lobbyId := 60, isHost := false, game := some "chess"
    lobbyRef := none, socket := 10 }

/-- A `HOST` payload that explicitly sets `isMesh` to `false`. -/
def dH : HostData :=
  { game := some "chess", isPublic := true, isMesh := some false
    maxPeers := some 4, tags := none }

/-- A lobby-less peer used by the queue-creation witness. -/
def pQW : Peer :=
  { id := 35, lobbyId := 35, isHost := false, game := some "chess"
    lobbyRef := none, socket := 11 }

theorem filterBlockBody_eq_nil (xs : List α) (p : α → Bool) :
    filterBlockBody xs p = [] := by
  simp [filterBlockBody]

theorem mem_map_lobbyType {dir : List Lobby} {f : Lobby → Lobby}
    (hf : ∀ l, (f l).lobbyType = l.lobbyType) :
    ∀ x ∈ dir.map f, ∃ l0 ∈ dir, x.lobbyType = l0.lobbyType := by
  intro x hx
  rcases List.mem_map.mp hx with ⟨l0, h0, hfx⟩
  exact ⟨l0, h0, by rw [← hfx, hf]⟩

theorem handleHOST_lobbies_cases (d : HostData) (p : Peer) (dir : List Lobby)
    (c : String) (t : Nat) :
    (handleHOST d p dir c t).lobbies = dir ∨
      ∃ l, (handleHOST d p dir c t).lobbies = dir ++ [l] ∧ l.lobbyType ≠ LOBBY_TYPE_QUEUE := by
  simp only [handleHOST]
  split
  · exact Or.inl rfl
  · refine Or.inr ⟨_, rfl, ?_⟩
    cases d.isPublic <;>
      simp [LOBBY_TYPE_PUBLIC, LOBBY_TYPE_PRIVATE, LOBBY_TYPE_QUEUE]

theorem handleQUEUE_lobbies (d : QueueData) (p : Peer) (dir : List Lobby)
    (c : String) (t : Nat) :
    (handleQUEUE d p dir c t).lobbies = dir := by
  simp only [handleQUEUE]
  split
  · rfl
  · split
    · rfl
    · split <;> rfl

theorem handleJOIN_mem_lobbies (d : JoinData) (p : Peer) (dir : List Lobby) :
    ∀ l ∈ (handleJOIN d p dir).lobbies, ∃ l0 ∈ dir, l.lobbyType = l0.lobbyType := by
  simp only [handleJOIN]
  split
  · split
    · exact fun l hl => ⟨l, hl, rfl⟩
    · rename_i code lobby hfind
      intro l hl
      rcases List.mem_or_eq_of_mem_set hl with h | h
      · exact ⟨l, h, rfl⟩
      · exact ⟨lobby, List.mem_of_find?_eq_some hfind, by rw [h]⟩
  · exact fun l hl => ⟨l, hl, rfl⟩

theorem handleKICK_ok_lobbies (i : Option Int) (p : Peer) (dir : List Lobby)
    (r : HandlerResult) (h : handleKICK i p dir = Except.ok r) :
    ∀ l ∈ r.lobbies, ∃ l0 ∈ dir, l.lobbyType = l0.lobbyType := by
  simp only [handleKICK] at h
  split at h
  · cases h
    exact fun l hl => ⟨l, hl, rfl⟩
  · cases h
    exact fun l hl => ⟨l, hl, rfl⟩
  · split at h
    · cases h
    · split at h
      · cases h
      · split at h
        · cases h
          exact mem_map_lobbyType (fun l => by split <;> rfl)
        · cases h
          exact fun l hl => ⟨l, hl, rfl⟩

theorem socketClose_mem_lobbies (p : Peer) (dir : List Lobby) :
    ∀ l ∈ (socketClose p dir).lobbies, ∃ l0 ∈ dir, l.lobbyType = l0.lobbyType := by
  simp only [socketClose]
  split
  · rename_i lobby heq
    split
    · split
      · intro l hl
        have hl' : l ∈ filterBlockBody dir (fun l => l.lobbyCode == lobby.lobbyCode) := hl
        rw [filterBlockBody_eq_nil] at hl'
        cases hl'
      · exact mem_map_lobbyType (fun l => by split <;> rfl)
    · split
      · intro l hl
        have hl' : l ∈ filterBlockBody dir (fun l => l.lobbyCode == lobby.lobbyCode) := hl
        rw [filterBlockBody_eq_nil] at hl'
        cases hl'
      · exact fun l hl => ⟨l, hl, rfl⟩
  · exact fun l hl => ⟨l, hl, rfl⟩

theorem DirStep_noQueue {d d' : List Lobby} (h : DirStep d d') (hq : NoQueueLobby d) :
    NoQueueLobby d' := by
  cases h with
  | host hd hp dirx c t =>
    rcases handleHOST_lobbies_cases hd hp d c t with he | ⟨l, he, hl⟩
    · rw [he]; exact hq
    · rw [he]
      intro x hx
      rcases List.mem_append.mp hx with hx | hx
      · exact hq x hx
      · rw [List.mem_singleton.mp hx]
        exact hl
  | join hd hp dirx =>
    intro x hx
    rcases handleJOIN_mem_lobbies hd hp d x hx with ⟨l0, h0, ht⟩
    rw [ht]
    exact hq l0 h0
  | queue hd hp dirx c t =>
    rw [handleQUEUE_lobbies]
    exact hq
  | kick i p dirx r hk =>
    intro x hx
    rcases handleKICK_ok_lobbies i p d r hk x hx with ⟨l0, h0, ht⟩
    rw [ht]
    exact hq l0 h0
  | sealLobby code =>
    intro x hx
    rcases mem_map_lobbyType (fun l => by split <;> rfl) x hx with ⟨l0, h0, ht⟩
    rw [ht]
    exact hq l0 h0
  | closeEvt p =>
    intro x hx
    rcases socketClose_mem_lobbies p d x hx with ⟨l0, h0, ht⟩
    rw [ht]
    exact hq l0 h0
  | reap code =>
    intro x hx
    rw [filterBlockBody_eq_nil] at hx
    cases hx

theorem reachable_noQueue {dir : List Lobby} (h : ReachableDir dir) : NoQueueLobby dir := by
  induction h with
  | init => intro l hl; cases hl
  | step _ hs ih => exact DirStep_noQueue hs ih

theorem queueMatches_eq_nil {dir : List Lobby} (hq : NoQueueLobby dir)
    (g : String) (mp : Int) (tags : Option String) :
    queueMatches g mp tags dir = [] := by
  apply List.filter_eq_nil_iff.mpr
  intro l hl
  have ht := hq l hl
  simp only [Bool.and_eq_true, beq_iff_eq, decide_eq_true_eq]
  intro hconj
  exact absurd hconj.1.1.1.1.2 ht

/-- Claim C10.  The claim states that every draw of the random source
yields `0 ≤ id < 2^31`; the formula of source line 148,
`Math.floor(Math.random() * (2147483647 - 2) - 2)`, gives `-2` at the
draw `r = 0`, so the minted id can be negative. -/
theorem minted_peer_id_can_be_negative :
    mintPeerId 0 = -2 ∧ ¬ (0 ≤ mintPeerId 0 ∧ mintPeerId 0 < 2 ^ 31) := by
  have h : mintPeerId 0 = -2 := by
    unfold mintPeerId
    norm_num
  refine ⟨h, ?_⟩
  rw [h]
  decide

/-- Claim C7.  The claim states that at `peerCount ≥ MAX_CONNS` the
server only sends `ERR{TOO_MANY_PEERS}` and closes, and that it mints
a peer, increments the count, starts the timers and sends `ID` only
otherwise.  The over-capacity branch of the connection handler does
not return, so at `curPeerCnt = 4096` the handler still increments
the count to 4097, mints a peer, starts its timers and sends the `ID`
frame after the error frame. -/
theorem over_capacity_connection_still_mints_peer :
    (onConnection 4096 7).curPeerCnt = 4097
  ∧ (onConnection 4096 7).mintedPeer = true
  ∧ (onConnection 4096 7).startedTimers = true
  ∧ sendErr 7 TOO_MANY_PEERS ∈ (onConnection 4096 7).msgs
  ∧ Msg.send 7 PROTO_ID MsgData.empty ∈ (onConnection 4096 7).msgs := by
  decide

/-- Claim C9.  The claim states the client's `isMesh` is passed
through unchanged, with the default `true` applying only when the
field is absent.  Because source line 230 computes
`data['isMesh'] || true` and `false || true` is `true`, a `HOST`
command carrying `isMesh = false` still creates a lobby with
`isMesh = true` and a `HOST` reply carrying `isMesh = true`. -/
theorem host_isMesh_false_forced_true :
    ((handleHOST dH pH [] "ABCDEF" 3).lobbies.map Lobby.isMesh = [true])
  ∧ (handleHOST dH pH [] "ABCDEF" 3).msgs
      = [Msg.send 10 PROTO_HOST (MsgData.hostReply 1 "ABCDEF" true)] := by
  decide

/-- Claim C1.  The claim states that when the host of an active lobby
disconnects, exactly that lobby is removed from the directory, every
other lobby is unchanged, and the lobby's timers are cancelled.  On
the state `[lobA, lobB]` with the host of `lobA` disconnecting, the
block-body filter of source line 516 deletes **every** lobby (the
directory becomes `[]`, so the untouched `lobB` is removed as well),
and the reap timer `lobA.lobbyTimeoutId` is not among the cancelled
timers. -/
theorem host_disconnect_wipes_whole_directory :
    (socketClose pHostA [lobA, lobB]).lobbies = []
  ∧ lobB ∉ (socketClose pHostA [lobA, lobB]).lobbies
  ∧ lobA.lobbyTimeoutId ∉ (socketClose pHostA [lobA, lobB]).cancelledTimers
  ∧ (socketClose pHostA [lobA, lobB]).msgs
      = [Msg.send 0 PROTO_KICK (MsgData.kickNotice 1 false),
         Msg.send 1 PROTO_KICK (MsgData.kickNotice 11 false)] := by
  decide

/-- Claim C2.  The claim states that when no peer with
`lobbyId = toId` exists in the sender's lobby the server replies
`ERR{BAD_MESSAGE}` to the sender.  With the sender alone in its lobby
and `toId = 2`, line 411 leaves `toPeer` undefined and the
`toPeer.socket` access of line 415 throws a `TypeError`: no message,
`ERR` included, is sent to anyone. -/
theorem offer_to_absent_destination_throws :
    handleRTC PROTO_OFFER
        { toId := some 2, offer := some "sdp", answer := none, media := none
          index := none, sdp := none } pR
      = Except.error JsError.typeError := rfl

/-- Claim C5.  The claim states that a host kicking itself tears the
lobby down with a broadcast.  The host-kicks-self arm throws a
`ReferenceError` at its first statement (source line 356 reads
`lobby` inside the temporal dead zone of the `let lobby` on line
364), so no broadcast, removal or timer cancellation happens. -/
theorem host_self_kick_throws_reference_error :
    handleKICK (some 1) pK [lobK] = Except.error JsError.referenceError := rfl

/-- Claim C6.  The claim states that a host kick naming an id that
belongs to no peer of its lobby is a no-op without a crash.  The
host-kicks-other arm calls `peer.lobby.find(...)` (source line 372)
on a `Lobby` object which has no `find` method, so the handler throws
a `TypeError` instead of doing nothing. -/
theorem host_kick_unknown_id_throws_type_error :
    handleKICK (some 7) pK [lobK] = Except.error JsError.typeError := rfl

/-- Claim C3.  The claim states that with more than one matching queue
lobby the sender joins the first match and **is added to that lobby's
peer list**.  On a directory holding the two matching queue lobbies
`qLob1` and `qLob2`, the join arm sets the peer's lobby reference and
sends the reply and the `ADD`s, but the directory — and hence
`qLob1.peerList` — is left unchanged: the peer is never appended. -/
theorem queue_join_arm_never_appends_peer :
    (handleQUEUE qData pQ [qLob1, qLob2] "SSSSSS" 9).lobbies = [qLob1, qLob2]
  ∧ (handleQUEUE qData pQ [qLob1, qLob2] "SSSSSS" 9).peer.isHost = false
  ∧ (handleQUEUE qData pQ [qLob1, qLob2] "SSSSSS" 9).peer.lobbyRef = some qLob1
  ∧ (handleQUEUE qData pQ [qLob1, qLob2] "SSSSSS" 9).msgs.head?
      = some (Msg.send 4 PROTO_QUEUE (MsgData.queueReply 30 "QQQQQQ" true false))
  ∧ peerEntryOf (handleQUEUE qData pQ [qLob1, qLob2] "SSSSSS" 9).peer ∉ qLob1.peerList := by
  decide

theorem viewLobbyList_types {dir : List Lobby} (hq : NoQueueLobby dir) (d : ViewData) :
    ∀ e ∈ viewLobbyList d dir, e.lobbyType ≠ LOBBY_TYPE_QUEUE := by
  intro e he
  simp only [viewLobbyList] at he
  rcases List.mem_map.mp he with ⟨l, hl, hfe⟩
  have hld : l ∈ dir := by
    rcases hmatch : jsStrOrNull d.lobbyCode with _ | code
    · rw [hmatch] at hl
      exact (List.mem_filter.mp hl).1
    · rw [hmatch] at hl
      exact (List.mem_filter.mp hl).1
  rw [← hfe]
  exact hq l hld

/-- Claim C4.  A queue lobby created by the lobby-not-found arm of
`QUEUE` is never pushed onto `LOBBIES_LIST`, and no other operation
ever inserts a queue-type lobby either; hence on every reachable
directory the queue match filter is empty, the join arm (which needs
more than one match) is unreachable, every valid `QUEUE` command
creates a fresh queue lobby with the caller as host (`isHost = true`,
`lobbyId = 1`) while leaving the directory unchanged, and no `VIEW`
reply ever lists a queue-type lobby. -/
theorem queue_lobby_never_in_directory (dir : List Lobby) (h : ReachableDir dir) :
    NoQueueLobby dir
  ∧ (∀ g mp tags, queueMatches g mp tags dir = [])
  ∧ (∀ d p c t g, jsStrOrNull d.game = some g → jsNumOrNegOne d.maxPeers ≠ -1 →
        (handleQUEUE d p dir c t).peer.isHost = true
      ∧ (handleQUEUE d p dir c t).peer.lobbyId = 1
      ∧ (handleQUEUE d p dir c t).lobbies = dir
      ∧ ∃ lob, (handleQUEUE d p dir c t).created = some lob
          ∧ lob.lobbyType = LOBBY_TYPE_QUEUE
          ∧ lob.peerList = [peerEntryOf { p with lobbyId := 1, isHost := true }])
  ∧ (∀ d, ∀ e ∈ viewLobbyList d dir, e.lobbyType ≠ LOBBY_TYPE_QUEUE) := by
  have hq := reachable_noQueue h
  refine ⟨hq, fun g mp tags => queueMatches_eq_nil hq g mp tags, ?_,
    fun d => viewLobbyList_types hq d⟩
  intro d p c t g hg hm
  simp only [handleQUEUE, hg, if_neg hm, queueMatches_eq_nil hq]
  refine ⟨trivial, trivial, trivial, ?_⟩
  exact ⟨_, rfl, rfl, rfl⟩

/-- Claim C4 witness: the empty directory is reachable, and a concrete
valid `QUEUE` command on it makes the caller the host of a fresh
queue lobby without touching the directory. -/
theorem queue_lobby_never_in_directory_witness :
    (handleQUEUE qData pQW [] "TTTTTT" 9).peer.isHost = true
  ∧ (handleQUEUE qData pQW [] "TTTTTT" 9).peer.lobbyId = 1
  ∧ (handleQUEUE qData pQW [] "TTTTTT" 9).lobbies = [] := by
  have hw := (queue_lobby_never_in_directory [] ReachableDir.init).2.2.1
    qData pQW "TTTTTT" 9 "chess" (by decide) (by decide)
  exact ⟨hw.1, hw.2.1, hw.2.2.1⟩

theorem find?_set_decomp {p : Lobby → Bool} :
    ∀ (l : List Lobby) (x : Lobby), l.find? p = some x → ∀ v : Lobby,
      ∃ pre post, l = pre ++ x :: post ∧ l.set (l.findIdx p) v = pre ++ v :: post := by
  intro l
  induction l with
  | nil =>
    intro x hx v
    simp at hx
  | cons a tl ih =>
    intro x hx v
    by_cases hp : p a = true
    · rw [List.find?_cons_of_pos _ hp] at hx
      have hax := Option.some.inj hx
      subst hax
      refine ⟨[], tl, rfl, ?_⟩
      rw [List.findIdx_cons]
      simp [hp]
    · rw [List.find?_cons_of_neg _ hp] at hx
      rcases ih x hx v with ⟨pre, post, hdec, hset⟩
      refine ⟨a :: pre, post, by rw [hdec]; rfl, ?_⟩
      rw [List.findIdx_cons]
      simp only [hp, cond_false]
      simp only [List.set]
      rw [hset]
      rfl

/-- Claim C8.  For a `JOIN` whose `game` and `lobbyCode` are present:
when no active, not-full lobby with that code exists (in particular
when the only such lobby is full), the handler replies
`ERR{LOBBY_NOT_FOUND}` and changes nothing; on a hit the peer is
appended to the found lobby's `peerList` with `isHost = false` and
`lobbyId = peer.id`, every other directory entry is unchanged, and
the first frame the peer receives is
`JOIN{id, isMesh, lobbyCode}`. -/
theorem join_miss_errs_hit_appends (data : JoinData) (peer : Peer) (dir : List Lobby)
    (g c : String) (hg : jsStrOrNull data.game = some g)
    (hc : jsStrOrNull data.lobbyCode = some c) :
    (dir.find? (joinPred c) = none →
        handleJOIN data peer dir
          = { peer := peer, lobbies := dir, msgs := [sendErr peer.socket LOBBY_NOT_FOUND] })
  ∧ (∀ lob, dir.find? (joinPred c) = some lob →
        (handleJOIN data peer dir).peer.isHost = false
      ∧ (handleJOIN data peer dir).peer.lobbyId = peer.id
      ∧ (∃ pre post, dir = pre ++ lob :: post
          ∧ (handleJOIN data peer dir).lobbies
            = pre ++ { lob with peerList := lob.peerList
                ++ [peerEntryOf { peer with isHost := false, lobbyId := peer.id }] } :: post)
      ∧ (handleJOIN data peer dir).msgs.head?
          = some (Msg.send peer.socket PROTO_JOIN
              (MsgData.joinReply peer.id lob.isMesh lob.lobbyCode))) := by
  constructor
  · intro hnone
    simp only [handleJOIN, hg, hc, hnone]
  · intro lob hfind
    simp only [handleJOIN, hg, hc, hfind]
    refine ⟨trivial, trivial, ?_, rfl⟩
    exact find?_set_decomp dir lob hfind _

/-- Claim C8 witness: joining the full lobby `fullLobby` (one member,
`maxPeers = 1`) with matching code misses the lookup and yields
`ERR{LOBBY_NOT_FOUND}` with the state unchanged. -/
theorem join_miss_errs_hit_appends_witness :
    handleJOIN dJ pJ [fullLobby]
      = { peer := pJ, lobbies := [fullLobby]
          msgs := [sendErr pJ.socket LOBBY_NOT_FOUND] } :=
  (join_miss_errs_hit_appends dJ pJ [fullLobby] "chess" "FFFFFF"
    (by decide) (by decide)).1 (by decide)
